import Mathlib

/-!
Verification development for the strawberry tag reader/writer core
(`src/ext/libstrawberry-tagreader/tagreadertaglib.cpp`).

The C++ core is shallowly embedded: the collaborating codec library's tag
containers (Vorbis/Xiph comments, APE tags, ID3v2 tags, MP4 atom tags, ASF
attribute tags) are modelled as explicit functional data structures, file
handles as a sum type over the concrete container kinds, and the public
operations (`ReadFile`, `WriteFile`, `LoadEmbeddedArt`, `SaveEmbeddedArt`,
`SaveSongPlaycountToFile`, `SaveSongRatingToFile`) as pure functions over an
explicit environment supplying the external collaborators (file existence
probe, file opening, file info, clock, base64 decoding, save outcome).
Canonical ratings are modelled as rationals; machine integers as `Int`/`Nat`.
-/

namespace Strawberry

/-- Result/status codes surfaced to callers (`TagReaderBase::Result::ErrorCode`). -/
inductive ErrorCode
  | Success
  | FilenameMissing
  | FileDoesNotExist
  | FileOpenError
  | FileSaveError
  | Unsupported
deriving DecidableEq, Repr

/-! ## String helpers modelling Qt string operations -/

/-- Index of the first occurrence of a character in a character list. -/
def charIndex : List Char → Char → Option Nat
  | [], _ => none
  | a :: rest, c => if a = c then some 0 else (charIndex rest c).map (· + 1)

/-- Models `QString::indexOf(QChar)`: first index of the character, or -1. -/
def strIndexOf (s : String) (c : Char) : Int :=
  match charIndex s.data c with
  | none => -1
  | some n => (n : Int)

/-- Models `QString::left(n)`: the first `n` characters. -/
def strLeft (s : String) (n : Nat) : String :=
  String.mk (s.data.take n)

/-- Numeric value of a (already-validated) decimal digit list. -/
def digitsVal (l : List Char) : Nat :=
  l.foldl (fun acc c => acc * 10 + (c.toNat - '0'.toNat)) 0

/-- Models `QString::toInt()`: the whole string must be an optionally signed
decimal numeral, otherwise the result is 0. -/
def qtoInt (s : String) : Int :=
  match s.data with
  | [] => 0
  | '-' :: rest =>
      if rest ≠ [] ∧ rest.all (fun c => c.isDigit) then -(digitsVal rest : Int) else 0
  | '+' :: rest =>
      if rest ≠ [] ∧ rest.all (fun c => c.isDigit) then (digitsVal rest : Int) else 0
  | l => if l.all (fun c => c.isDigit) then (digitsVal l : Int) else 0

/-- Decimal digit characters of a natural number, with explicit fuel so the
definition is structural (fuel `n+1` always suffices). -/
def natDigitsAux : Nat → Nat → List Char
  | 0, _ => []
  | fuel + 1, n =>
      if n < 10 then [Nat.digitChar n]
      else natDigitsAux fuel (n / 10) ++ [Nat.digitChar (n % 10)]

/-- Models `QString::number` on an unsigned integer. -/
def natStr (n : Nat) : String := String.mk (natDigitsAux (n + 1) n)

/-- Models `QString::number` / `TagLib::String::number` on a signed integer. -/
def intStr : Int → String
  | Int.ofNat n => natStr n
  | Int.negSucc n => String.mk ('-' :: (natStr (n + 1)).data)

/-- Models `QString::number` on a float; canonical ratings are embedded as
exact rationals and rendered from the exact value. -/
def qNumber (r : Rat) : String :=
  if r.den = 1 then intStr r.num
  else String.mk ((intStr r.num).data ++ '/' :: (natStr r.den).data)

/-! ## Tag container models -/

/-- A FLAC/Ogg picture block (`TagLib::FLAC::Picture`): whether it is typed
front cover, its MIME type, and its image bytes. -/
structure FlacPicture where
  front : Bool
  mime : String
  pdata : List Nat
deriving DecidableEq, Repr

/-- A Vorbis/Xiph comment block: ordered key/value field list (a key may
repeat) plus the attached picture list. -/
structure XiphComment where
  fields : List (String × String)
  pictures : List FlacPicture
deriving DecidableEq, Repr

/-- Values of a Xiph field, in order (`fieldListMap()[k]`). -/
def XiphComment.fieldValues (c : XiphComment) (k : String) : List String :=
  (c.fields.filter (fun p => p.1 == k)).map (fun p => p.2)

/-- Models `XiphComment::removeFields`. -/
def XiphComment.removeFields (c : XiphComment) (k : String) : XiphComment :=
  { c with fields := c.fields.filter (fun p => !(p.1 == k)) }

/-- Models `XiphComment::addField` with `replace = true` (all call sites in
the core pass `true`): existing fields are removed, then the value is appended
unless key or value is empty. -/
def XiphComment.addField (c : XiphComment) (k v : String) : XiphComment :=
  let c1 := c.removeFields k
  if k ≠ "" ∧ v ≠ "" then { c1 with fields := c1.fields ++ [(k, v)] } else c1

/-- An APE tag item: a text value list or a binary payload. -/
inductive APEItem
  | strs (vals : List String)
  | bin (bytes : List Nat)
deriving DecidableEq, Repr

/-- Binary payload of an APE item (`APE::Item::binaryData`). -/
def APEItem.binaryData : APEItem → List Nat
  | .strs _ => []
  | .bin b => b

/-- An APE tag: ordered item map. -/
structure APETag where
  items : List (String × APEItem)
deriving DecidableEq, Repr

/-- First item stored under a key (`itemListMap()[k]`). -/
def APETag.lookup (t : APETag) (k : String) : Option APEItem :=
  (t.items.find? (fun p => p.1 == k)).map (fun p => p.2)

/-- Models `APE::Tag::removeItem`. -/
def APETag.removeItem (t : APETag) (k : String) : APETag :=
  ⟨t.items.filter (fun p => !(p.1 == k))⟩

/-- Models `APE::Tag::setItem`: replaces the item under the key. -/
def APETag.setItem (t : APETag) (k : String) (v : APEItem) : APETag :=
  ⟨(t.removeItem k).items ++ [(k, v)]⟩

/-- Models `APE::Tag::addValue` with `replace = true`: removes the key, then
adds the value unless key or value is empty. -/
def APETag.addValueReplace (t : APETag) (k v : String) : APETag :=
  let t1 := t.removeItem k
  if k ≠ "" ∧ v ≠ "" then ⟨t1.items ++ [(k, APEItem.strs [v])]⟩ else t1

/-- An ID3v2 frame, covering the frame classes the core manipulates. `extra`
stands for the encoding/framing sub-structure that `render`ing and re-parsing
a frame preserves. -/
inductive Frame
  | text (fid : String) (content : String) (extra : String)
  | userText (descr : String) (content : String)
  | uslt (descr : String) (content : String) (extra : String)
  | comm (descr : String) (content : String)
  | popm (counter : Nat) (ratingByte : Nat)
  | apic (pdata : List Nat)
deriving DecidableEq, Repr

/-- The four-character frame identifier a frame is filed under. -/
def Frame.frameId : Frame → String
  | .text fid _ _ => fid
  | .userText _ _ => "TXXX"
  | .uslt _ _ _ => "USLT"
  | .comm _ _ => "COMM"
  | .popm _ _ => "POPM"
  | .apic _ => "APIC"

/-- Models `setText` on a re-parsed frame: replaces the textual content,
preserving identifier and framing. -/
def Frame.setText : Frame → String → Frame
  | .text fid _ extra, s => .text fid s extra
  | .userText d _, s => .userText d s
  | .uslt d _ extra, s => .uslt d s extra
  | .comm d _, s => .comm d s
  | .popm c r, _ => .popm c r
  | .apic p, _ => .apic p

/-- Image bytes of an APIC frame (`AttachedPictureFrame::picture`). -/
def Frame.apicData : Frame → List Nat
  | .apic p => p
  | _ => []

/-- An ID3v2 tag: the ordered frame list. -/
structure ID3v2Tag where
  frames : List Frame
deriving DecidableEq, Repr

/-- One pass of the `SetTextFrame` capture loop: repeatedly taking and
removing the front of `frameListMap()[id]` captures every frame filed under
`id` (in order) and leaves the remaining frames (in order). -/
def captureAndClear (frames : List Frame) (id : String) : List Frame × List Frame :=
  match frames with
  | [] => ([], [])
  | f :: rest =>
      let pr := captureAndClear rest id
      if f.frameId = id then (f :: pr.1, pr.2) else (pr.1, f :: pr.2)

/-- The re-add loop of `SetTextFrame`: re-create every buffered frame,
overwriting the text of the first one (index 0) with the new value. -/
def updFirst (l : List Frame) (v : String) : List Frame :=
  match l with
  | [] => []
  | f :: rest => f.setText v :: rest

/-- Models `TagReaderTagLib::SetTextFrame`: capture and remove every frame
under `id`; stop if the new value is empty; otherwise re-create one frame per
captured instance (a fresh UTF-8 frame when none existed), overwrite the
first instance's text, and re-add all instances. -/
def setTextFrame (id : String) (value : String) (tag : ID3v2Tag) : ID3v2Tag :=
  if value = "" then ⟨(captureAndClear tag.frames id).2⟩
  else
    ⟨(captureAndClear tag.frames id).2 ++
      updFirst
        (if (captureAndClear tag.frames id).1.isEmpty
         then [Frame.text id "" "UTF8"]
         else (captureAndClear tag.frames id).1)
        value⟩

/-- Models `TagReaderTagLib::SetUnsyncLyricsFrame` (same algorithm on the
USLT lyrics frame, with a described fresh frame). -/
def setUnsyncLyricsFrame (value : String) (tag : ID3v2Tag) : ID3v2Tag :=
  if value = "" then ⟨(captureAndClear tag.frames "USLT").2⟩
  else
    ⟨(captureAndClear tag.frames "USLT").2 ++
      updFirst
        (if (captureAndClear tag.frames "USLT").1.isEmpty
         then [Frame.uslt "Clementine editor" "" "UTF8"]
         else (captureAndClear tag.frames "USLT").1)
        value⟩

/-- Removes the first TXXX frame carrying the given description
(`UserTextIdentificationFrame::find` followed by `removeFrame`). -/
def removeFirstUserText (frames : List Frame) (d : String) : List Frame :=
  match frames with
  | [] => []
  | Frame.userText d2 v :: rest =>
      if d2 = d then rest else Frame.userText d2 v :: removeFirstUserText rest d
  | f :: rest => f :: removeFirstUserText rest d

/-- Models `TagReaderTagLib::SetUserTextFrame`: locate by description, remove
if found, then always append a fresh frame with the new value. -/
def setUserTextFrame (descr value : String) (tag : ID3v2Tag) : ID3v2Tag :=
  ⟨removeFirstUserText tag.frames descr ++ [Frame.userText descr value]⟩

/-- Replaces the first frame filed under "POPM" in place. -/
def replaceFirstPOPMFrame (l : List Frame) (fr : Frame) : List Frame :=
  match l with
  | [] => []
  | a :: rest =>
      if a.frameId = "POPM" then fr :: rest else a :: replaceFirstPOPMFrame rest fr

/-- Models `GetPOPMFrameFromTag` followed by a mutation of the returned
frame: the front of `frameListMap()["POPM"]` is updated in place when it is a
popularimeter frame; otherwise a fresh default frame (counter 0, rating 0) is
appended and then mutated. -/
def withPOPM (tag : ID3v2Tag) (g : Nat × Nat → Nat × Nat) : ID3v2Tag :=
  match tag.frames.find? (fun f => f.frameId == "POPM") with
  | some (Frame.popm c r) =>
      ⟨replaceFirstPOPMFrame tag.frames (Frame.popm (g (c, r)).1 (g (c, r)).2)⟩
  | _ => ⟨tag.frames ++ [Frame.popm (g (0, 0)).1 (g (0, 0)).2]⟩

/-- Counter of the frame at the front of `frameListMap()["POPM"]`, if that
frame is a popularimeter frame. -/
def ID3v2Tag.popmCounter (t : ID3v2Tag) : Option Nat :=
  match t.frames.find? (fun f => f.frameId == "POPM") with
  | some (Frame.popm c _) => some c
  | _ => none

/-- An MP4 atom item. -/
inductive MP4Item
  | intPair (a b : Int)
  | boolItem (b : Bool)
  | strs (vals : List String)
  | covers (png : Bool) (cdata : List Nat)
deriving DecidableEq, Repr

/-- An MP4 atom tag: ordered item map. -/
structure MP4Tag where
  items : List (String × MP4Item)
deriving DecidableEq, Repr

/-- Item stored under an atom name (`MP4::Tag::item`). -/
def MP4Tag.lookup (t : MP4Tag) (k : String) : Option MP4Item :=
  (t.items.find? (fun p => p.1 == k)).map (fun p => p.2)

/-- Models `MP4::Tag::contains`. -/
def MP4Tag.containsItem (t : MP4Tag) (k : String) : Bool :=
  t.items.any (fun p => p.1 == k)

/-- Models `MP4::Tag::removeItem`. -/
def MP4Tag.removeItem (t : MP4Tag) (k : String) : MP4Tag :=
  ⟨t.items.filter (fun p => !(p.1 == k))⟩

/-- Models `MP4::Tag::setItem`: replaces the item under the atom name. -/
def MP4Tag.setItem (t : MP4Tag) (k : String) (v : MP4Item) : MP4Tag :=
  ⟨(t.removeItem k).items ++ [(k, v)]⟩

/-- An ASF tag: ordered attribute list (a name may repeat). -/
structure ASFTag where
  attributes : List (String × String)
deriving DecidableEq, Repr

/-- Models `ASF::Tag::setAttribute`: replaces every attribute under the name
with the single given value. -/
def ASFTag.setAttribute (t : ASFTag) (k v : String) : ASFTag :=
  ⟨t.attributes.filter (fun p => !(p.1 == k)) ++ [(k, v)]⟩

/-- Models `ASF::Tag::addAttribute`: appends a value under the name. -/
def ASFTag.addAttribute (t : ASFTag) (k v : String) : ASFTag :=
  ⟨t.attributes ++ [(k, v)]⟩

/-- Models `ASF::Tag::removeItem`. -/
def ASFTag.removeItem (t : ASFTag) (k : String) : ASFTag :=
  ⟨t.attributes.filter (fun p => !(p.1 == k))⟩

/-- Values stored under an attribute name, in order. -/
def ASFTag.attrValues (t : ASFTag) (k : String) : List String :=
  (t.attributes.filter (fun p => p.1 == k)).map (fun p => p.2)

/-! ## Canonical metadata record, handles and environment -/

/-- Concrete container classification (`spb::tagreader::SongMetadata_FileType`). -/
inductive FileType
  | wav | flac | wavpack | oggflac | oggvorbis | oggopus | oggspeex
  | mpeg | mp4 | asf | aiff | mpc | trueaudio | ape
  | modFmt | s3mFmt | xmFmt | itFmt | dsf | dsdiff
  | unknown
deriving DecidableEq, Repr

/-- The canonical metadata record (`spb::tagreader::SongMetadata`), restricted
to the fields this core reads or writes. Unset protobuf defaults are empty
strings, zeros and `false`. -/
structure Song where
  title : String := ""
  artist : String := ""
  album : String := ""
  albumartist : String := ""
  genre : String := ""
  composer : String := ""
  performer : String := ""
  grouping : String := ""
  comment : String := ""
  lyrics : String := ""
  year : Int := 0
  originalyear : Int := 0
  track : Int := 0
  disc : Int := 0
  bitrate : Int := 0
  samplerate : Int := 0
  bitdepth : Int := 0
  lengthNanosec : Int := 0
  lastplayed : Int := 0
  playcount : Nat := 0
  rating : Rat := 0
  compilation : Bool := false
  valid : Bool := false
  artEmbedded : Bool := false
  filetype : FileType := .unknown
  basefilename : String := ""
  url : String := ""
  filesize : Int := 0
  mtime : Int := 0
  ctime : Int := 0
  lastseen : Int := 0
deriving DecidableEq, Repr

/-- The default-initialized record handed to `ReadFile`. -/
def defaultSong : Song := {}

/-- The generic tag interface (`TagLib::Tag`): title/artist/album/genre/
comment plus year and track. -/
structure GenericTag where
  title : String := ""
  artist : String := ""
  album : String := ""
  genre : String := ""
  comment : String := ""
  year : Int := 0
  track : Int := 0
deriving DecidableEq, Repr

/-- The generic audio-properties interface (`TagLib::AudioProperties`). -/
structure AudioProps where
  bitrate : Int := 0
  sampleRate : Int := 0
  lengthMs : Int := 0
deriving DecidableEq, Repr

/-- The concrete file behind an opened `FileRef`, as discriminated by the
chain of `dynamic_cast` tests, together with its format-specific tag state. -/
inductive SpecificFile
  | flacF (xiph : Option XiphComment) (pictures : List FlacPicture) (bitsPerSample : Int)
  | wavpackF (ape : Option APETag) (bitsPerSample : Int)
  | apeF (ape : Option APETag) (bitsPerSample : Int)
  | mpcF (ape : Option APETag)
  | mpegF (id3 : Option ID3v2Tag)
  | mp4F (mtag : Option MP4Tag) (bitsPerSample : Int)
  | wavF (id3 : Option ID3v2Tag)
  | asfF (atag : Option ASFTag) (bitsPerSample : Int)
  | oggVorbisF (xiph : XiphComment)
  | oggOpusF (xiph : XiphComment)
  | oggSpeexF (xiph : XiphComment)
  | oggFlacF (xiph : XiphComment)
  | aiffF
  | trueAudioF
  | modF
  | s3mF
  | xmF
  | itF
  | unknownF
deriving DecidableEq, Repr

/-- Models `dynamic_cast<TagLib::Ogg::XiphComment*>(fileref->file()->tag())`:
the cast succeeds exactly for the Ogg-family files whose generic tag is the
Xiph comment itself. -/
def SpecificFile.xiphTag : SpecificFile → Option XiphComment
  | .oggVorbisF x => some x
  | .oggOpusF x => some x
  | .oggSpeexF x => some x
  | .oggFlacF x => some x
  | _ => none

/-- An opened `TagLib::FileRef`: generic tag view, generic audio properties,
and the concrete file. -/
structure Handle where
  tag : Option GenericTag
  props : Option AudioProps
  file : SpecificFile
deriving DecidableEq, Repr

/-- Models `TagReaderTagLib::GuessFileType`. -/
def guessFileType : SpecificFile → FileType
  | .wavF _ => .wav
  | .flacF _ _ _ => .flac
  | .wavpackF _ _ => .wavpack
  | .oggFlacF _ => .oggflac
  | .oggVorbisF _ => .oggvorbis
  | .oggOpusF _ => .oggopus
  | .oggSpeexF _ => .oggspeex
  | .mpegF _ => .mpeg
  | .mp4F _ _ => .mp4
  | .asfF _ _ => .asf
  | .aiffF => .aiff
  | .mpcF _ => .mpc
  | .trueAudioF => .trueaudio
  | .apeF _ _ => .ape
  | .modF => .modFmt
  | .s3mF => .s3mFmt
  | .xmF => .xmFmt
  | .itF => .itFmt
  | .unknownF => .unknown

/-- File metadata supplied by the host's file-info probe (`QFileInfo`):
name, size, last-modified and birth timestamps (`none` when invalid). -/
structure FileInfo where
  fileName : String := ""
  size : Int := 0
  lastModified : Option Int := none
  birthTime : Option Int := none

/-- External collaborators of the core: existence probe, file opening, file
info, URL encoding, clock, save outcome, and base64 decoding. -/
structure Ext where
  fileExists : String → Bool
  openFile : String → Option Handle
  fileInfo : String → FileInfo
  urlEncode : String → String
  nowSecs : Int
  saveOk : Handle → Bool
  b64decode : String → List Nat

/-! ## Per-format playcount and rating write routines -/

/-- MP4 atom name for the FMPS playcount (`kMP4_FMPS_Playcount_ID`). -/
def kMP4FMPSPlaycountID : String := "----:com.apple.iTunes:FMPS_Playcount"

/-- MP4 atom name for the FMPS rating (`kMP4_FMPS_Rating_ID`). -/
def kMP4FMPSRatingID : String := "----:com.apple.iTunes:FMPS_Rating"

/-- Models `SetPlaycount(TagLib::Ogg::XiphComment*, uint)`. -/
def setPlaycountXiph (c : XiphComment) (pc : Nat) : XiphComment :=
  if pc > 0 then c.addField "FMPS_PLAYCOUNT" (natStr pc)
  else c.removeFields "FMPS_PLAYCOUNT"

/-- Models `SetPlaycount(TagLib::APE::Tag*, uint)`. -/
def setPlaycountAPE (t : APETag) (pc : Nat) : APETag :=
  if pc > 0 then t.setItem "FMPS_Playcount" (APEItem.strs [natStr pc])
  else t.removeItem "FMPS_Playcount"

/-- Models `SetPlaycount(TagLib::ID3v2::Tag*, uint)`: always rewrites the
FMPS_Playcount user-text frame and always sets the POPM counter. -/
def setPlaycountID3 (t : ID3v2Tag) (pc : Nat) : ID3v2Tag :=
  withPOPM (setUserTextFrame "FMPS_Playcount" (natStr pc) t) (fun cr => (pc, cr.2))

/-- Models `SetPlaycount(TagLib::MP4::Tag*, uint)`. -/
def setPlaycountMP4 (t : MP4Tag) (pc : Nat) : MP4Tag :=
  if pc > 0 then t.setItem kMP4FMPSPlaycountID (MP4Item.strs [natStr pc])
  else t.removeItem kMP4FMPSPlaycountID

/-- Models `SetPlaycount(TagLib::ASF::Tag*, uint)`. -/
def setPlaycountASF (t : ASFTag) (pc : Nat) : ASFTag :=
  if pc > 0 then t.setAttribute "FMPS/Playcount" (natStr pc)
  else t.removeItem "FMPS/Playcount"

/-- Modelled from the spec: `ConvertToPOPMRating` lives in the tag-reader
base outside this file; the spec's rating codec maps a canonical rating at or
below zero to byte 0 and otherwise rounds into five bands with representative
bytes 1, 64, 128, 196, 255. -/
def convertToPOPMRating (r : Rat) : Nat :=
  if r ≤ 0 then 0
  else if r ≤ 1/5 then 1
  else if r ≤ 2/5 then 64
  else if r ≤ 3/5 then 128
  else if r ≤ 4/5 then 196
  else 255

/-- Models `SetRating(TagLib::Ogg::XiphComment*, float)`. -/
def setRatingXiph (c : XiphComment) (r : Rat) : XiphComment :=
  if r > 0 then c.addField "FMPS_RATING" (qNumber r)
  else c.removeFields "FMPS_RATING"

/-- Models `SetRating(TagLib::APE::Tag*, float)`. -/
def setRatingAPE (t : APETag) (r : Rat) : APETag :=
  if r > 0 then t.setItem "FMPS_Rating" (APEItem.strs [qNumber r])
  else t.removeItem "FMPS_Rating"

/-- Models `SetRating(TagLib::ID3v2::Tag*, float)`: always rewrites the
FMPS_Rating user-text frame and the POPM rating byte. -/
def setRatingID3 (t : ID3v2Tag) (r : Rat) : ID3v2Tag :=
  withPOPM (setUserTextFrame "FMPS_Rating" (qNumber r) t)
    (fun cr => (cr.1, convertToPOPMRating r))

/-- Models `SetRating(TagLib::MP4::Tag*, float)`: sets the atom
unconditionally. -/
def setRatingMP4 (t : MP4Tag) (r : Rat) : MP4Tag :=
  t.setItem kMP4FMPSRatingID (MP4Item.strs [qNumber r])

/-- Models `SetRating(TagLib::ASF::Tag*, float)`: appends the attribute
unconditionally. -/
def setRatingASF (t : ASFTag) (r : Rat) : ASFTag :=
  t.addAttribute "FMPS/Rating" (qNumber r)

/-! ## Tag writer -/

/-- Cover image bytes and MIME type resolved from a write/save-art request
(`LoadCoverFromRequest` output). -/
structure Cover where
  data : List Nat := []
  mime : String := ""
deriving DecidableEq, Repr

/-- A `WriteFileRequest`: the record and the four independent save flags. -/
structure WriteRequest where
  song : Song
  saveTags : Bool := false
  savePlaycount : Bool := false
  saveRating : Bool := false
  saveCover : Bool := false
deriving Repr

/-- The generic setters at the start of the `save_tags` path of `WriteFile`
(title/artist/album/genre/comment, plus year/track clamped to 0 when unset). -/
def setGenericFields (song : Song) (t : GenericTag) : GenericTag :=
  { t with
    title := song.title, artist := song.artist, album := song.album,
    genre := song.genre, comment := song.comment,
    year := if song.year ≤ 0 then 0 else song.year,
    track := if song.track ≤ 0 then 0 else song.track }

/-- Models `TagReaderTagLib::SetVorbisComments`. -/
def setVorbisComments (x : XiphComment) (song : Song) : XiphComment :=
  let x := x.addField "COMPOSER" song.composer
  let x := x.addField "PERFORMER" song.performer
  let x := x.addField "GROUPING" song.grouping
  let x := x.addField "DISCNUMBER" (if song.disc ≤ 0 then "" else intStr song.disc)
  let x := x.addField "COMPILATION" (if song.compilation then "1" else "")
  let x := x.addField "ALBUMARTIST" song.albumartist
  let x := x.removeFields "ALBUM ARTIST"
  let x := x.addField "LYRICS" song.lyrics
  x.removeFields "UNSYNCEDLYRICS"

/-- Models `TagReaderTagLib::SaveAPETag`. -/
def saveAPETag (t : APETag) (song : Song) : APETag :=
  let t := t.setItem "album artist" (APEItem.strs [song.albumartist])
  let t := t.addValueReplace "disc" (if song.disc ≤ 0 then "" else intStr song.disc)
  let t := t.setItem "composer" (APEItem.strs [song.composer])
  let t := t.setItem "grouping" (APEItem.strs [song.grouping])
  let t := t.setItem "performer" (APEItem.strs [song.performer])
  let t := t.setItem "lyrics" (APEItem.strs [song.lyrics])
  t.addValueReplace "compilation" (if song.compilation then "1" else "")

/-- Models `TagReaderTagLib::SaveID3v2Tag`: rewrite the six single-value text
frames and the lyrics frame (TPE1 is deliberately skipped). -/
def saveID3v2Tag (t : ID3v2Tag) (song : Song) : ID3v2Tag :=
  let t := setTextFrame "TPOS" (if song.disc ≤ 0 then "" else intStr song.disc) t
  let t := setTextFrame "TCOM" song.composer t
  let t := setTextFrame "TIT1" song.grouping t
  let t := setTextFrame "TOPE" song.performer t
  let t := setTextFrame "TPE2" song.albumartist t
  let t := setTextFrame "TCMP" (if song.compilation then "1" else "") t
  setUnsyncLyricsFrame song.lyrics t

/-- Models `SetEmbeddedArt` for FLAC files: replace the file-level picture
list with one front-cover picture, or none when the data is empty. -/
def setEmbeddedArtFlacPictures (cover : Cover) : List FlacPicture :=
  if cover.data = [] then [] else [⟨true, cover.mime, cover.data⟩]

/-- Models `SetEmbeddedArt` for Xiph comments: remove all pictures, then add
one front-cover picture when the data is non-empty. -/
def setEmbeddedArtXiph (x : XiphComment) (cover : Cover) : XiphComment :=
  { x with pictures := if cover.data = [] then [] else [⟨true, cover.mime, cover.data⟩] }

/-- Models `SetEmbeddedArt` for ID3v2 tags: remove every APIC frame, then
append one front-cover APIC frame when the data is non-empty. -/
def setEmbeddedArtID3 (t : ID3v2Tag) (cover : Cover) : ID3v2Tag :=
  let rest := t.frames.filter (fun f => !(f.frameId == "APIC"))
  if cover.data = [] then ⟨rest⟩ else ⟨rest ++ [Frame.apic cover.data]⟩

/-- Models `SetEmbeddedArt` for MP4 tags: empty data removes the covr item;
JPEG/PNG MIME types store one cover; any other MIME type silently does
nothing. -/
def setEmbeddedArtMP4 (t : MP4Tag) (cover : Cover) : MP4Tag :=
  if cover.data = [] then
    if t.containsItem "covr" then t.removeItem "covr" else t
  else if cover.mime = "image/jpeg" then
    t.setItem "covr" (MP4Item.covers false cover.data)
  else if cover.mime = "image/png" then
    t.setItem "covr" (MP4Item.covers true cover.data)
  else t

/-- The APE-family branch body of `WriteFile` (shared verbatim by the
WavPack, APE and MPC branches). -/
def apeTagWrites (t : APETag) (req : WriteRequest) : APETag :=
  let t := if req.saveTags then saveAPETag t req.song else t
  let t := if req.savePlaycount then setPlaycountAPE t req.song.playcount else t
  if req.saveRating then setRatingAPE t req.song.rating else t

/-- The ID3v2 branch body of `WriteFile` (shared by the MPEG and WAV
branches). -/
def id3TagWrites (t : ID3v2Tag) (req : WriteRequest) (cover : Cover) : ID3v2Tag :=
  let t := if req.saveTags then saveID3v2Tag t req.song else t
  let t := if req.savePlaycount then setPlaycountID3 t req.song.playcount else t
  let t := if req.saveRating then setRatingID3 t req.song.rating else t
  if req.saveCover then setEmbeddedArtID3 t cover else t

/-- The Xiph-comment writes of `WriteFile` shared by the FLAC branch (minus
its file-level cover handling) and the trailing Ogg-family block. -/
def xiphTagWrites (x : XiphComment) (req : WriteRequest) : XiphComment :=
  let x := if req.saveTags then setVorbisComments x req.song else x
  let x := if req.savePlaycount then setPlaycountXiph x req.song.playcount else x
  if req.saveRating then setRatingXiph x req.song.rating else x

/-- The MP4 branch body of `WriteFile`; the disc guard is written as in the
source (`song.disc() <= 0 - 1`). -/
def mp4TagWrites (t : MP4Tag) (req : WriteRequest) (cover : Cover) : MP4Tag :=
  let song := req.song
  let t := if req.saveTags then
      let t := t.setItem "disk"
        (MP4Item.intPair (if song.disc ≤ 0 - 1 then 0 else song.disc) 0)
      let t := t.setItem "©wrt" (MP4Item.strs [song.composer])
      let t := t.setItem "©grp" (MP4Item.strs [song.grouping])
      let t := t.setItem "©lyr" (MP4Item.strs [song.lyrics])
      let t := t.setItem "aART" (MP4Item.strs [song.albumartist])
      t.setItem "cpil" (MP4Item.boolItem song.compilation)
    else t
  let t := if req.savePlaycount then setPlaycountMP4 t song.playcount else t
  let t := if req.saveRating then setRatingMP4 t song.rating else t
  if req.saveCover then setEmbeddedArtMP4 t cover else t

/-- The in-memory tag mutation performed by `WriteFile` between a successful
open and the terminal save: the generic setters, then the `dynamic_cast`
dispatch chain, then the trailing non-FLAC Xiph-comment block. Formats with
no branch (notably ASF) are left untouched beyond the generic tag. -/
def writeTagsToHandle (h : Handle) (req : WriteRequest) (cover : Cover) : Handle :=
  let gtag := if req.saveTags then h.tag.map (setGenericFields req.song) else h.tag
  let file := match h.file with
    | .flacF xiph pics bps =>
        let x := xiphTagWrites (xiph.getD ⟨[], []⟩) req
        let pics2 := if req.saveCover then setEmbeddedArtFlacPictures cover else pics
        SpecificFile.flacF (some x) pics2 bps
    | .wavpackF ape bps =>
        SpecificFile.wavpackF (some (apeTagWrites (ape.getD ⟨[]⟩) req)) bps
    | .apeF ape bps =>
        SpecificFile.apeF (some (apeTagWrites (ape.getD ⟨[]⟩) req)) bps
    | .mpcF ape =>
        SpecificFile.mpcF (some (apeTagWrites (ape.getD ⟨[]⟩) req))
    | .mpegF id3 =>
        SpecificFile.mpegF (some (id3TagWrites (id3.getD ⟨[]⟩) req cover))
    | .mp4F mtag bps =>
        match mtag with
        | some t => SpecificFile.mp4F (some (mp4TagWrites t req cover)) bps
        | none => SpecificFile.mp4F none bps
    | .wavF id3 =>
        match id3 with
        | some t => SpecificFile.wavF (some (id3TagWrites t req cover))
        | none => SpecificFile.wavF none
    | .oggVorbisF x =>
        SpecificFile.oggVorbisF
          (if req.saveCover then setEmbeddedArtXiph (xiphTagWrites x req) cover
           else xiphTagWrites x req)
    | .oggOpusF x =>
        SpecificFile.oggOpusF
          (if req.saveCover then setEmbeddedArtXiph (xiphTagWrites x req) cover
           else xiphTagWrites x req)
    | .oggSpeexF x =>
        SpecificFile.oggSpeexF
          (if req.saveCover then setEmbeddedArtXiph (xiphTagWrites x req) cover
           else xiphTagWrites x req)
    | .oggFlacF x =>
        SpecificFile.oggFlacF
          (if req.saveCover then setEmbeddedArtXiph (xiphTagWrites x req) cover
           else xiphTagWrites x req)
    | other => other
  { h with tag := gtag, file := file }

/-- Models `TagReaderTagLib::WriteFile`. The second component is the saved
handle state, `none` when the operation never opened the file. -/
def writeFile (ext : Ext) (filename : String) (req : WriteRequest) (cover : Cover) :
    ErrorCode × Option Handle :=
  if filename = "" then (.FilenameMissing, none)
  else if ext.fileExists filename = false then (.FileDoesNotExist, none)
  else match ext.openFile filename with
    | none => (.FileOpenError, none)
    | some h =>
        let h2 := writeTagsToHandle h req cover
        (if ext.saveOk h2 then .Success else .FileSaveError, some h2)

/-! ## Tag reader -/

/-- Nanoseconds per millisecond (`kNsecPerMsec`). -/
def kNsecPerMsec : Int := 1000000

/-- File housekeeping populated by `ReadFile` after the existence check and
before the open: basename, URL, size, modify/creation times (creation falls
back to the modify time when invalid or non-positive) and last-seen. -/
def readFilePrologue (ext : Ext) (filename : String) (song : Song) : Song :=
  let info := ext.fileInfo filename
  let mtime : Int := match info.lastModified with
    | some m => max m 0
    | none => 0
  let ctime0 : Int := match info.birthTime with
    | some b => max b 0
    | none => match info.lastModified with
      | some m => max m 0
      | none => 0
  let ctime1 := if ctime0 ≤ 0 then mtime else ctime0
  { song with
    basefilename := info.fileName, url := ext.urlEncode filename,
    filesize := info.size, mtime := mtime, ctime := ctime1,
    lastseen := ext.nowSecs }

/-- The disc staging post-processing of `ReadFile`: a non-empty staged string
containing '/' contributes the part before the first '/', a non-empty string
without '/' is parsed whole, and an empty string leaves the field alone. -/
def applyDiscStaging (disc0 : Int) (disc : String) : Int :=
  if disc = "" then disc0
  else
    let i := strIndexOf disc '/'
    if i ≠ -1 then qtoInt (strLeft disc i.toNat) else qtoInt disc

/-- The compilation staging post-processing of `ReadFile`: an unset staging
string triggers the various-artists inference (an exact `QString::compare`
against the lowercase literal, which is case-sensitive); a set staging string
parses to an integer compared with 1. -/
def applyCompilationStaging (song : Song) (compilation : String) : Song :=
  if compilation = "" then
    if song.artist = "various artists" ∨ song.albumartist = "various artists" then
      { song with compilation := true }
    else song
  else { song with compilation := qtoInt compilation = 1 }

/-- One field of the final normalization: non-positive becomes the unset
sentinel -1. -/
def normalizeField (x : Int) : Int := if x ≤ 0 then -1 else x

/-- The final normalization block of `ReadFile` over its eight integer
fields. -/
def normalizeSong (s : Song) : Song :=
  { s with
    track := normalizeField s.track, disc := normalizeField s.disc,
    year := normalizeField s.year, originalyear := normalizeField s.originalyear,
    samplerate := normalizeField s.samplerate, bitdepth := normalizeField s.bitdepth,
    bitrate := normalizeField s.bitrate, lastplayed := normalizeField s.lastplayed }

/-- The post-processing of `ReadFile` after the format dispatch: disc and
compilation staging, lyrics staging, then the final normalization. -/
def readFilePost (song : Song) (disc compilation lyrics : String) : Song :=
  let s1 := { song with disc := applyDiscStaging song.disc disc }
  let s2 := applyCompilationStaging s1 compilation
  let s3 := if lyrics ≠ "" then { s2 with lyrics := lyrics } else s2
  normalizeSong s3

/-- Models `TagReaderTagLib::ReadFile`. The format-specific extraction body
(lines between the generic-tag read and the post-processing) is taken as a
parameter `extract` returning the updated record and the staged disc,
compilation and lyrics strings; every claim over `ReadFile` in this
development quantifies over it. -/
def readFile (ext : Ext)
    (extract : Handle → Song → Song × String × String × String)
    (filename : String) : ErrorCode × Song :=
  if filename = "" then (.FilenameMissing, defaultSong)
  else if ext.fileExists filename = false then (.FileDoesNotExist, defaultSong)
  else
    let song0 := readFilePrologue ext filename defaultSong
    match ext.openFile filename with
    | none => (.FileOpenError, song0)
    | some h =>
        let song1 := { song0 with filetype := guessFileType h.file }
        let song2 := match h.props with
          | some p =>
              { song1 with
                bitrate := p.bitrate
                samplerate := p.sampleRate
                lengthNanosec := p.lengthMs * kNsecPerMsec }
          | none => song1
        let song3 := match h.tag with
          | some t =>
              { song2 with
                title := t.title
                artist := t.artist
                album := t.album
                genre := t.genre
                year := t.year
                track := t.track
                valid := true }
          | none => song2
        let ex := extract h song3
        let song5 := readFilePost ex.1 ex.2.1 ex.2.2.1 ex.2.2.2
        if song5.filetype = FileType.unknown then (.Unsupported, song5)
        else (.Success, song5)

/-! ## Cover art extraction -/

/-- The per-picture loop of the FLAC/Ogg cover lookup: data of the first
front-cover picture with non-empty bytes. -/
def firstFrontCoverData : List FlacPicture → Option (List Nat)
  | [] => none
  | p :: rest =>
      if p.front ∧ p.pdata ≠ [] then some p.pdata else firstFrontCoverData rest

/-- Models `TagReaderTagLib::LoadEmbeddedAPEArt`: the bytes of the
"COVER ART (FRONT)" binary item after the null-terminated description. -/
def loadEmbeddedAPEArt (t : APETag) : List Nat :=
  match t.lookup "COVER ART (FRONT)" with
  | some item =>
      let d := item.binaryData
      match charIndexNat d 0 with
      | some i => if i + 1 < d.length then d.drop (i + 1) else []
      | none => []
  | none => []
where
  /-- Index of the first zero byte (`ByteVector::find('\0')`). -/
  charIndexNat : List Nat → Nat → Option Nat
    | [], _ => none
    | a :: rest, c => if a = c then some 0 else (charIndexNat rest c).map (· + 1)

/-- Models `TagReaderTagLib::LoadEmbeddedArt`: per-format first-front-cover
lookup; every post-open path returns `Success`, with empty data when nothing
is found. -/
def loadEmbeddedArt (ext : Ext) (filename : String) : ErrorCode × List Nat :=
  if filename = "" then (.FilenameMissing, [])
  else if ext.fileExists filename = false then (.FileDoesNotExist, [])
  else match ext.openFile filename with
    | none => (.FileOpenError, [])
    | some h =>
        match h.file with
        | .flacF xiph pics _ =>
            match xiph with
            | some _ =>
                match firstFrontCoverData pics with
                | some d => (.Success, d)
                | none => (.Success, [])
            | none => (.Success, [])
        | .wavpackF ape _ =>
            match ape with
            | some t => (.Success, loadEmbeddedAPEArt t)
            | none => (.Success, [])
        | .apeF ape _ =>
            match ape with
            | some t => (.Success, loadEmbeddedAPEArt t)
            | none => (.Success, [])
        | .mpcF ape =>
            match ape with
            | some t => (.Success, loadEmbeddedAPEArt t)
            | none => (.Success, [])
        | .oggVorbisF x => (.Success, xiphArt ext x)
        | .oggOpusF x => (.Success, xiphArt ext x)
        | .oggSpeexF x => (.Success, xiphArt ext x)
        | .oggFlacF x => (.Success, xiphArt ext x)
        | .mpegF id3 =>
            match id3 with
            | some t =>
                match t.frames.filter (fun f => f.frameId == "APIC") with
                | [] => (.Success, [])
                | f :: _ => (.Success, f.apicData)
            | none => (.Success, [])
        | .mp4F mtag _ =>
            match mtag with
            | some t =>
                match t.lookup "covr" with
                | some (MP4Item.covers _ d) => (.Success, d)
                | _ => (.Success, [])
            | none => (.Success, [])
        | _ => (.Success, [])
where
  /-- The Ogg-family block: picture list first, then the legacy base64
  COVERART field. -/
  xiphArt (ext : Ext) (x : XiphComment) : List Nat :=
    match firstFrontCoverData x.pictures with
    | some d => d
    | none =>
        if (x.fieldValues "COVERART").length > 0 then
          ext.b64decode (String.intercalate " " (x.fieldValues "COVERART"))
        else []

/-- Models `TagReaderTagLib::SaveEmbeddedArt`. The second component is the
handle state at the save, `none` when the file was never opened. -/
def saveEmbeddedArt (ext : Ext) (filename : String) (cover : Cover) :
    ErrorCode × Option Handle :=
  if filename = "" then (.FilenameMissing, none)
  else if ext.fileExists filename = false then (.FileDoesNotExist, none)
  else match ext.openFile filename with
    | none => (.FileOpenError, none)
    | some h =>
        let file2 : Option SpecificFile := match h.file with
          | .flacF xiph _ bps =>
              some (.flacF (some (xiph.getD ⟨[], []⟩)) (setEmbeddedArtFlacPictures cover) bps)
          | .oggVorbisF x => some (.oggVorbisF (setEmbeddedArtXiph x cover))
          | .oggOpusF x => some (.oggOpusF (setEmbeddedArtXiph x cover))
          | .oggSpeexF x => some (.oggSpeexF (setEmbeddedArtXiph x cover))
          | .oggFlacF x => some (.oggFlacF (setEmbeddedArtXiph x cover))
          | .mpegF id3 =>
              match id3 with
              | some t => some (.mpegF (some (setEmbeddedArtID3 t cover)))
              | none => some (.mpegF none)
          | .mp4F mtag bps =>
              match mtag with
              | some t => some (.mp4F (some (setEmbeddedArtMP4 t cover)) bps)
              | none => some (.mp4F none bps)
          | _ => none
        match file2 with
        | none => (.Unsupported, some h)
        | some f =>
            let h2 := { h with file := f }
            (if ext.saveOk h2 then .Success else .FileSaveError, some h2)

/-! ## Playcount and rating save operations -/

/-- Models `TagReaderTagLib::SaveSongPlaycountToFile`. The second component
is the handle state at the save, `none` when the file was never opened. -/
def saveSongPlaycountToFile (ext : Ext) (filename : String) (pc : Nat) :
    ErrorCode × Option Handle :=
  if filename = "" then (.FilenameMissing, none)
  else if ext.fileExists filename = false then (.FileDoesNotExist, none)
  else match ext.openFile filename with
    | none => (.FileOpenError, none)
    | some h =>
        let file2 : Option SpecificFile := match h.file with
          | .flacF xiph pics bps =>
              some (.flacF (some (setPlaycountXiph (xiph.getD ⟨[], []⟩) pc)) pics bps)
          | .wavpackF ape bps =>
              some (.wavpackF (some (setPlaycountAPE (ape.getD ⟨[]⟩) pc)) bps)
          | .apeF ape bps =>
              some (.apeF (some (setPlaycountAPE (ape.getD ⟨[]⟩) pc)) bps)
          | .oggVorbisF x => some (.oggVorbisF (setPlaycountXiph x pc))
          | .oggOpusF x => some (.oggOpusF (setPlaycountXiph x pc))
          | .oggSpeexF x => some (.oggSpeexF (setPlaycountXiph x pc))
          | .oggFlacF x => some (.oggFlacF (setPlaycountXiph x pc))
          | .mpegF id3 =>
              some (.mpegF (some (setPlaycountID3 (id3.getD ⟨[]⟩) pc)))
          | .mp4F mtag bps =>
              match mtag with
              | some t => some (.mp4F (some (setPlaycountMP4 t pc)) bps)
              | none => some (.mp4F none bps)
          | .mpcF ape =>
              some (.mpcF (some (setPlaycountAPE (ape.getD ⟨[]⟩) pc)))
          | .asfF atag bps =>
              match atag with
              | some t =>
                  if pc > 0 then
                    some (.asfF (some (t.addAttribute "FMPS/Playcount" (natStr pc))) bps)
                  else some (.asfF (some t) bps)
              | none => some (.asfF none bps)
          | _ => none
        match file2 with
        | none => (.Unsupported, some h)
        | some f =>
            let h2 := { h with file := f }
            (if ext.saveOk h2 then .Success else .FileSaveError, some h2)

/-- Models `TagReaderTagLib::SaveSongRatingToFile`: after the validation
prologue a strictly negative rating returns `Success` before the file is
opened; otherwise the per-format rating write runs and the file is saved.
The second component is the handle state at the save, `none` when the file
was never opened. -/
def saveSongRatingToFile (ext : Ext) (filename : String) (rating : Rat) :
    ErrorCode × Option Handle :=
  if filename = "" then (.FilenameMissing, none)
  else if ext.fileExists filename = false then (.FileDoesNotExist, none)
  else if rating < 0 then (.Success, none)
  else match ext.openFile filename with
    | none => (.FileOpenError, none)
    | some h =>
        let file2 : Option SpecificFile := match h.file with
          | .flacF xiph pics bps =>
              some (.flacF (some (setRatingXiph (xiph.getD ⟨[], []⟩) rating)) pics bps)
          | .wavpackF ape bps =>
              some (.wavpackF (some (setRatingAPE (ape.getD ⟨[]⟩) rating)) bps)
          | .apeF ape bps =>
              some (.apeF (some (setRatingAPE (ape.getD ⟨[]⟩) rating)) bps)
          | .oggVorbisF x => some (.oggVorbisF (setRatingXiph x rating))
          | .oggOpusF x => some (.oggOpusF (setRatingXiph x rating))
          | .oggSpeexF x => some (.oggSpeexF (setRatingXiph x rating))
          | .oggFlacF x => some (.oggFlacF (setRatingXiph x rating))
          | .mpegF id3 =>
              some (.mpegF (some (setRatingID3 (id3.getD ⟨[]⟩) rating)))
          | .mp4F mtag bps =>
              match mtag with
              | some t => some (.mp4F (some (setRatingMP4 t rating)) bps)
              | none => some (.mp4F none bps)
          | .asfF atag bps =>
              match atag with
              | some t => some (.asfF (some (setRatingASF t rating)) bps)
              | none => some (.asfF none bps)
          | .mpcF ape =>
              some (.mpcF (some (setRatingAPE (ape.getD ⟨[]⟩) rating)))
          | _ => none
        match file2 with
        | none => (.Unsupported, some h)
        | some f =>
            let h2 := { h with file := f }
            (if ext.saveOk h2 then .Success else .FileSaveError, some h2)

/-! ## Observers and concrete environments used in the theorems -/

/-- Well-formedness of a tag with respect to the popularimeter frame: every
frame filed under "POPM" is an actual popularimeter frame (always true of
tags produced by the codec library). -/
def wfPOPM (t : ID3v2Tag) : Prop :=
  ∀ f ∈ t.frames, f.frameId = "POPM" → ∃ c r, f = Frame.popm c r

/-- A trivial format-specific extraction: no staging strings, record
unchanged (stands for a file with no format-specific fields). -/
def extractTrivial : Handle → Song → Song × String × String × String :=
  fun _ s => (s, "", "", "")

/-- An opened MPEG file whose generic tag carries artist "Various Artists"
and an empty ID3v2 tag. -/
def mpegHandleVA : Handle :=
  { tag := some { artist := "Various Artists" }, props := none,
    file := .mpegF (some ⟨[]⟩) }

/-- An environment where every path exists and opens onto `mpegHandleVA`. -/
def extVA : Ext :=
  { fileExists := fun _ => true, openFile := fun _ => some mpegHandleVA,
    fileInfo := fun _ => {}, urlEncode := fun s => s, nowSecs := 0,
    saveOk := fun _ => true, b64decode := fun _ => [] }

/-- An environment where no path exists. -/
def extNoFile : Ext :=
  { extVA with fileExists := fun _ => false, openFile := fun _ => none }

/-- An opened ASF file with an empty attribute tag. -/
def asfHandle : Handle :=
  { tag := some {}, props := none, file := .asfF (some ⟨[]⟩) 16 }

/-- An environment where every path exists and opens onto `asfHandle`. -/
def extASF : Ext := { extVA with openFile := fun _ => some asfHandle }

/-- A write request asking only for a playcount of 5 to be saved. -/
def reqPlaycount5 : WriteRequest :=
  { song := { defaultSong with playcount := 5 }, savePlaycount := true }

/-! ## Helper lemmas -/

theorem natStr_ne_empty (n : Nat) : natStr n ≠ "" := by
  unfold natStr natDigitsAux
  split
  · intro h
    have := congrArg String.data h
    simp at this
  · intro h
    have := congrArg String.data h
    simp at this

theorem intStr_ne_empty (i : Int) : intStr i ≠ "" := by
  cases i with
  | ofNat n => exact natStr_ne_empty n
  | negSucc n =>
      intro h
      have := congrArg String.data h
      simp [intStr] at this

theorem qNumber_ne_empty (r : Rat) : qNumber r ≠ "" := by
  unfold qNumber
  split
  · exact intStr_ne_empty _
  · intro h
    have := congrArg String.data h
    simp at this

section AssocLemmas

variable {α : Type}

theorem find_filter_self_eq_none (l : List (String × α)) (k : String) :
    (l.filter (fun p => !(p.1 == k))).find? (fun p => p.1 == k) = none := by
  induction l with
  | nil => rfl
  | cons a rest ih =>
      by_cases ha : a.1 = k
      · simp [List.filter_cons, ha, ih]
      · simp [List.filter_cons, ha, List.find?, ih]

theorem find_removed_append (l : List (String × α)) (k : String) (v : String × α)
    (hv : v.1 = k) :
    ((l.filter (fun p => !(p.1 == k))) ++ [v]).find? (fun p => p.1 == k) = some v := by
  induction l with
  | nil => simp [List.find?, hv]
  | cons a rest ih =>
      by_cases ha : a.1 = k
      · simpa [List.filter_cons, ha] using ih
      · simpa [List.filter_cons, ha, List.find?] using ih

theorem filter_filter_not (l : List (String × α)) (k : String) :
    (l.filter (fun p => !(p.1 == k))).filter (fun p => p.1 == k) = [] := by
  induction l with
  | nil => rfl
  | cons a rest ih =>
      by_cases ha : a.1 = k
      · simp [List.filter_cons, ha, ih]
      · simp [List.filter_cons, ha, ih]

theorem filter_removed_append (l : List (String × α)) (k : String) (v : String × α)
    (hv : v.1 = k) :
    ((l.filter (fun p => !(p.1 == k))) ++ [v]).filter (fun p => p.1 == k) = [v] := by
  rw [List.filter_append, filter_filter_not]
  simp [List.filter_cons, hv]

end AssocLemmas

theorem captureAndClear_fst (l : List Frame) (id : String) :
    (captureAndClear l id).1 = l.filter (fun f => f.frameId == id) := by
  induction l with
  | nil => rfl
  | cons f rest ih =>
      by_cases hf : f.frameId = id
      · simp [captureAndClear, List.filter_cons, hf, ih]
      · simp [captureAndClear, List.filter_cons, hf, ih]

theorem captureAndClear_snd (l : List Frame) (id : String) :
    (captureAndClear l id).2 = l.filter (fun f => !(f.frameId == id)) := by
  induction l with
  | nil => rfl
  | cons f rest ih =>
      by_cases hf : f.frameId = id
      · simp [captureAndClear, List.filter_cons, hf, ih]
      · simp [captureAndClear, List.filter_cons, hf, ih]

theorem mem_replaceFirstPOPMFrame {l : List Frame} {f : Frame}
    (hm : f ∈ l) (hne : f.frameId ≠ "POPM") (fr : Frame) :
    f ∈ replaceFirstPOPMFrame l fr := by
  induction l with
  | nil => cases hm
  | cons a rest ih =>
      unfold replaceFirstPOPMFrame
      rcases List.mem_cons.mp hm with rfl | hm2
      · simp [hne]
      · by_cases ha : a.frameId = "POPM"
        · simp [ha, hm2]
        · simp [ha, ih hm2]

theorem mem_withPOPM {t : ID3v2Tag} {f : Frame}
    (hm : f ∈ t.frames) (hne : f.frameId ≠ "POPM") (g : Nat × Nat → Nat × Nat) :
    f ∈ (withPOPM t g).frames := by
  unfold withPOPM
  split
  · exact mem_replaceFirstPOPMFrame hm hne _
  · exact List.mem_append_left _ hm

theorem find_append_of_none {α : Type} {p : α → Bool} {l1 l2 : List α}
    (h : l1.find? p = none) : (l1 ++ l2).find? p = l2.find? p := by
  induction l1 with
  | nil => rfl
  | cons a rest ih =>
      cases hp : p a with
      | true => simp [List.find?, hp] at h
      | false =>
          simp only [List.find?, hp] at h
          simp only [List.cons_append, List.find?, hp]
          exact ih h

theorem find_replaceFirstPOPMFrame {l : List Frame} {a : Frame}
    (h : l.find? (fun f => f.frameId == "POPM") = some a) (fr : Frame)
    (hfr : fr.frameId = "POPM") :
    (replaceFirstPOPMFrame l fr).find? (fun f => f.frameId == "POPM") = some fr := by
  induction l with
  | nil => simp at h
  | cons b rest ih =>
      by_cases hb : b.frameId = "POPM"
      · simp [replaceFirstPOPMFrame, hb, List.find?, hfr]
      · simp only [List.find?, show (b.frameId == "POPM") = false by simp [hb]] at h
        simp only [replaceFirstPOPMFrame, if_neg hb, List.find?,
          show (b.frameId == "POPM") = false by simp [hb]]
        exact ih h

theorem popmCounter_withPOPM {t : ID3v2Tag} {pc : Nat}
    (g : Nat × Nat → Nat × Nat) (hg : ∀ cr, (g cr).1 = pc) (hwf : wfPOPM t) :
    (withPOPM t g).popmCounter = some pc := by
  unfold withPOPM
  cases hfind : t.frames.find? (fun f => f.frameId == "POPM") with
  | none =>
      simp only [ID3v2Tag.popmCounter]
      rw [find_append_of_none hfind]
      simp [List.find?, Frame.frameId, hg]
  | some a =>
      have hmem := List.mem_of_find?_eq_some hfind
      have hid : a.frameId = "POPM" := by
        have := List.find?_some hfind
        simpa using this
      obtain ⟨c, r, rfl⟩ := hwf a hmem hid
      simp only [ID3v2Tag.popmCounter]
      rw [find_replaceFirstPOPMFrame hfind
        (Frame.popm (g (c, r)).1 (g (c, r)).2) rfl]
      simp [hg]

theorem mem_of_mem_removeFirstUserText {l : List Frame} {d : String} {f : Frame}
    (h : f ∈ removeFirstUserText l d) : f ∈ l := by
  induction l with
  | nil => simp [removeFirstUserText] at h
  | cons a rest ih =>
      cases a with
      | userText d2 v =>
          by_cases hd : d2 = d
          · simp [removeFirstUserText, hd] at h
            exact List.mem_cons_of_mem _ h
          · simp [removeFirstUserText, hd] at h
            rcases h with rfl | h2
            · exact List.mem_cons_self _ _
            · exact List.mem_cons_of_mem _ (ih h2)
      | text fid c e =>
          simp [removeFirstUserText] at h
          rcases h with rfl | h2
          · exact List.mem_cons_self _ _
          · exact List.mem_cons_of_mem _ (ih h2)
      | uslt d2 c e =>
          simp [removeFirstUserText] at h
          rcases h with rfl | h2
          · exact List.mem_cons_self _ _
          · exact List.mem_cons_of_mem _ (ih h2)
      | comm d2 c =>
          simp [removeFirstUserText] at h
          rcases h with rfl | h2
          · exact List.mem_cons_self _ _
          · exact List.mem_cons_of_mem _ (ih h2)
      | popm c r =>
          simp [removeFirstUserText] at h
          rcases h with rfl | h2
          · exact List.mem_cons_self _ _
          · exact List.mem_cons_of_mem _ (ih h2)
      | apic p =>
          simp [removeFirstUserText] at h
          rcases h with rfl | h2
          · exact List.mem_cons_self _ _
          · exact List.mem_cons_of_mem _ (ih h2)

theorem wfPOPM_setUserTextFrame {t : ID3v2Tag} (hwf : wfPOPM t) (d v : String) :
    wfPOPM (setUserTextFrame d v t) := by
  intro f hf hid
  simp only [setUserTextFrame] at hf
  rcases List.mem_append.mp hf with h1 | h2
  · exact hwf f (mem_of_mem_removeFirstUserText h1) hid
  · simp at h2
    subst h2
    simp [Frame.frameId] at hid

theorem normalizeField_pos_or_unset (x : Int) :
    0 < normalizeField x ∨ normalizeField x = -1 := by
  unfold normalizeField
  split
  · right; rfl
  · left; omega

theorem charIndex_eq_none_iff (l : List Char) (c : Char) :
    charIndex l c = none ↔ c ∉ l := by
  induction l with
  | nil => simp [charIndex]
  | cons a rest ih =>
      simp only [charIndex, List.mem_cons]
      by_cases ha : a = c
      · subst ha
        simp
      · simp only [if_neg ha, Option.map_eq_none', ih]
        constructor
        · intro h
          push_neg
          exact ⟨fun hc => ha hc.symm, h⟩
        · intro h
          push_neg at h
          exact h.2

theorem take_charIndex {l : List Char} {c : Char} {n : Nat}
    (h : charIndex l c = some n) :
    l.take n = l.takeWhile (fun a => !(a == c)) := by
  induction l generalizing n with
  | nil => simp [charIndex] at h
  | cons a rest ih =>
      by_cases ha : a = c
      · simp only [charIndex, if_pos ha, Option.some.injEq] at h
        subst h
        simp [List.takeWhile_cons, ha]
      · simp only [charIndex, if_neg ha, Option.map_eq_some'] at h
        obtain ⟨m, hm, hn⟩ := h
        subst hn
        simp [List.take_succ_cons, List.takeWhile_cons, ha, ih hm]

/-! ## Claim theorems -/

/-- C2: evaluation of the compilation post-processing at the failing input.
The code compares the artist against the lowercase literal "various artists"
with a case-sensitive `QString::compare`, so an artist of "Various Artists"
with no staged compilation string yields compilation = false, where the
claimed case-insensitive comparison demands true; the exact lowercase artist
yields true, and a staged string follows the parses-to-1 rule. The same
failing input is also evaluated through a full `ReadFile` call. -/
theorem compilation_inference_case_sensitive_eval :
    (applyCompilationStaging { defaultSong with artist := "Various Artists" } "").compilation
      = false
  ∧ (applyCompilationStaging { defaultSong with artist := "various artists" } "").compilation
      = true
  ∧ (applyCompilationStaging { defaultSong with albumartist := "Pink Floyd" } "").compilation
      = false
  ∧ (applyCompilationStaging defaultSong "1").compilation = true
  ∧ (applyCompilationStaging defaultSong "0").compilation = false
  ∧ (readFile extVA extractTrivial "a.mp3").1 = ErrorCode.Success
  ∧ (readFile extVA extractTrivial "a.mp3").2.artist = "Various Artists"
  ∧ (readFile extVA extractTrivial "a.mp3").2.compilation = false := by
  decide

/-- C9: the disc staging post-processing of `ReadFile`. A non-empty staged
string containing '/' sets the disc to the integer parse of the part before
the first '/'; a non-empty staged string without '/' is parsed whole; an
empty staged string leaves the disc at its prior value. -/
theorem discStaging_parse_spec (d : Int) (s : String) :
    (s ≠ "" → '/' ∈ s.data →
        applyDiscStaging d s
          = qtoInt (String.mk (s.data.takeWhile (fun a => !(a == '/')))))
  ∧ (s ≠ "" → '/' ∉ s.data → applyDiscStaging d s = qtoInt s)
  ∧ (s = "" → applyDiscStaging d s = d) := by
  refine ⟨?_, ?_, ?_⟩
  · intro hne hmem
    obtain ⟨n, hn⟩ : ∃ n, charIndex s.data '/' = some n := by
      cases hc : charIndex s.data '/' with
      | none => exact absurd ((charIndex_eq_none_iff _ _).mp hc) (by simp [hmem])
      | some n => exact ⟨n, rfl⟩
    simp only [applyDiscStaging, if_neg hne, strIndexOf, hn]
    rw [if_pos (by omega : ¬((n : Int) = -1))]
    congr 1
    simp only [strLeft, Int.toNat_natCast]
    rw [take_charIndex hn]
  · intro hne hnot
    have hc : charIndex s.data '/' = none := (charIndex_eq_none_iff _ _).mpr hnot
    simp [applyDiscStaging, if_neg hne, strIndexOf, hc]
  · intro h
    simp [applyDiscStaging, h]

/-- C9 witness: the theorem applied at the spec's concrete examples:
"3/12" parses to disc 3, "7" to disc 7, and an empty staged string keeps the
prior disc value 5. -/
theorem discStaging_parse_spec_witness :
    applyDiscStaging 0 "3/12" = 3
  ∧ applyDiscStaging 0 "7" = 7
  ∧ applyDiscStaging 5 "" = 5 := by
  refine ⟨?_, ?_, ?_⟩
  · rw [(discStaging_parse_spec 0 "3/12").1 (by decide) (by decide)]
    decide
  · rw [(discStaging_parse_spec 0 "7").2.1 (by decide) (by decide)]
    decide
  · exact (discStaging_parse_spec 5 "").2.2 rfl

/-- C6: the ID3v2 text-frame rewrite. For every tag and value, the frames
not filed under the target identifier are preserved (in order), and the
frames under the identifier become: nothing when the new value is empty;
one fresh UTF-8 frame carrying the new value when none existed; otherwise
exactly the originally captured instances, re-added with only the first
instance's text replaced and the remaining instances preserved. -/
theorem setTextFrame_rewrite_spec (tag : ID3v2Tag) (id value : String) :
    (setTextFrame id value tag).frames =
      tag.frames.filter (fun f => !(f.frameId == id)) ++
        (if value = "" then []
         else
           match tag.frames.filter (fun f => f.frameId == id) with
           | [] => [Frame.text id value "UTF8"]
           | f :: rest => f.setText value :: rest) := by
  unfold setTextFrame
  by_cases hv : value = ""
  · simp [hv, captureAndClear_snd]
  · rw [if_neg hv, if_neg hv]
    rw [captureAndClear_snd, captureAndClear_fst]
    cases hc : tag.frames.filter (fun f => f.frameId == id) with
    | nil => simp [updFirst, Frame.setText]
    | cons f rest => simp [updFirst]

/-- C4 counterexample: the ID3v2 playcount write routine does not remove the
native field at playcount 0: on an empty ID3v2 tag it leaves an
FMPS_Playcount user-text frame carrying "0" and a POPM frame with counter 0,
so the native fields are present rather than removed. -/
theorem setPlaycount_id3_zero_counterexample :
    (setPlaycountID3 ⟨[]⟩ 0).frames
      = [Frame.userText "FMPS_Playcount" "0", Frame.popm 0 0]
  ∧ (setPlaycountID3 ⟨[]⟩ 0).frames ≠ [] := by
  decide

/-- C4 (amended): the Xiph-comment, APE, MP4 and ASF playcount write
routines set the native field to the decimal value when the playcount is
positive and remove it at playcount 0; the ID3v2 routine instead always
rewrites the FMPS_Playcount user-text frame with the decimal value
(including "0") and always sets the POPM counter, creating the POPM frame
when absent. -/
theorem setPlaycount_formats_spec :
    (∀ (x : XiphComment) (pc : Nat),
        (setPlaycountXiph x pc).fieldValues "FMPS_PLAYCOUNT"
          = if 0 < pc then [natStr pc] else [])
  ∧ (∀ (t : APETag) (pc : Nat),
        (setPlaycountAPE t pc).lookup "FMPS_Playcount"
          = if 0 < pc then some (APEItem.strs [natStr pc]) else none)
  ∧ (∀ (t : MP4Tag) (pc : Nat),
        (setPlaycountMP4 t pc).lookup kMP4FMPSPlaycountID
          = if 0 < pc then some (MP4Item.strs [natStr pc]) else none)
  ∧ (∀ (t : ASFTag) (pc : Nat),
        (setPlaycountASF t pc).attrValues "FMPS/Playcount"
          = if 0 < pc then [natStr pc] else [])
  ∧ (∀ (t : ID3v2Tag) (pc : Nat),
        Frame.userText "FMPS_Playcount" (natStr pc) ∈ (setPlaycountID3 t pc).frames
        ∧ (wfPOPM t → (setPlaycountID3 t pc).popmCounter = some pc)) := by
  refine ⟨?_, ?_, ?_, ?_, ?_⟩
  · intro x pc
    by_cases hpc : 0 < pc
    · have hv := natStr_ne_empty pc
      simp only [setPlaycountXiph, if_pos hpc, XiphComment.addField,
        XiphComment.removeFields, XiphComment.fieldValues]
      rw [if_pos ⟨by decide, hv⟩]
      simp [filter_removed_append x.fields "FMPS_PLAYCOUNT"
        ("FMPS_PLAYCOUNT", natStr pc) rfl]
    · simp only [setPlaycountXiph, if_neg hpc,
        XiphComment.removeFields, XiphComment.fieldValues]
      simp [filter_filter_not]
  · intro t pc
    by_cases hpc : 0 < pc
    · simp only [setPlaycountAPE, if_pos hpc, APETag.setItem, APETag.removeItem,
        APETag.lookup]
      rw [find_removed_append t.items "FMPS_Playcount"
        ("FMPS_Playcount", APEItem.strs [natStr pc]) rfl]
      rfl
    · simp only [setPlaycountAPE, if_neg hpc,
        APETag.removeItem, APETag.lookup]
      simp [find_filter_self_eq_none]
  · intro t pc
    by_cases hpc : 0 < pc
    · simp only [setPlaycountMP4, if_pos hpc, MP4Tag.setItem, MP4Tag.removeItem,
        MP4Tag.lookup]
      rw [find_removed_append t.items kMP4FMPSPlaycountID
        (kMP4FMPSPlaycountID, MP4Item.strs [natStr pc]) rfl]
      rfl
    · simp only [setPlaycountMP4, if_neg hpc,
        MP4Tag.removeItem, MP4Tag.lookup]
      simp [find_filter_self_eq_none]
  · intro t pc
    by_cases hpc : 0 < pc
    · simp only [setPlaycountASF, if_pos hpc, ASFTag.setAttribute, ASFTag.attrValues]
      simp [filter_removed_append t.attributes "FMPS/Playcount"
        ("FMPS/Playcount", natStr pc) rfl]
    · simp only [setPlaycountASF, if_neg hpc,
        ASFTag.removeItem, ASFTag.attrValues]
      simp [filter_filter_not]
  · intro t pc
    constructor
    · have hm : Frame.userText "FMPS_Playcount" (natStr pc)
          ∈ (setUserTextFrame "FMPS_Playcount" (natStr pc) t).frames := by
        simp [setUserTextFrame]
      exact mem_withPOPM hm (by simp [Frame.frameId]) _
    · intro hwf
      exact popmCounter_withPOPM _ (fun cr => rfl) (wfPOPM_setUserTextFrame hwf _ _)

/-- C4 witness: the amended theorem applied at concrete inputs, discharging
the POPM well-formedness hypothesis on an empty ID3v2 tag. -/
theorem setPlaycount_formats_spec_witness :
    wfPOPM ⟨[]⟩ ∧ (setPlaycountID3 ⟨[]⟩ 0).popmCounter = some 0 :=
  ⟨by simp [wfPOPM],
    (setPlaycount_formats_spec.2.2.2.2 ⟨[]⟩ 0).2 (by simp [wfPOPM])⟩

/-- C7: the per-format rating write routines: for Xiph comments and APE
tags, a positive rating sets the native field to the formatted value and a
rating at or below zero removes it; the MP4 routine sets its atom
unconditionally, and the ASF routine appends its attribute unconditionally,
neither having a removal path. -/
theorem setRating_formats_spec :
    (∀ (x : XiphComment) (r : Rat),
        (setRatingXiph x r).fieldValues "FMPS_RATING"
          = if 0 < r then [qNumber r] else [])
  ∧ (∀ (t : APETag) (r : Rat),
        (setRatingAPE t r).lookup "FMPS_Rating"
          = if 0 < r then some (APEItem.strs [qNumber r]) else none)
  ∧ (∀ (t : MP4Tag) (r : Rat),
        (setRatingMP4 t r).lookup kMP4FMPSRatingID
          = some (MP4Item.strs [qNumber r]))
  ∧ (∀ (t : ASFTag) (r : Rat),
        (setRatingASF t r).attributes = t.attributes ++ [("FMPS/Rating", qNumber r)]) := by
  refine ⟨?_, ?_, ?_, ?_⟩
  · intro x r
    by_cases hr : 0 < r
    · have hv := qNumber_ne_empty r
      simp only [setRatingXiph, if_pos hr, XiphComment.addField,
        XiphComment.removeFields, XiphComment.fieldValues]
      rw [if_pos ⟨by decide, hv⟩]
      simp [filter_removed_append x.fields "FMPS_RATING"
        ("FMPS_RATING", qNumber r) rfl]
    · simp only [setRatingXiph, if_neg hr,
        XiphComment.removeFields, XiphComment.fieldValues]
      simp [filter_filter_not]
  · intro t r
    by_cases hr : 0 < r
    · simp only [setRatingAPE, if_pos hr, APETag.setItem, APETag.removeItem,
        APETag.lookup]
      rw [find_removed_append t.items "FMPS_Rating"
        ("FMPS_Rating", APEItem.strs [qNumber r]) rfl]
      rfl
    · simp only [setRatingAPE, if_neg hr,
        APETag.removeItem, APETag.lookup]
      simp [find_filter_self_eq_none]
  · intro t r
    simp only [setRatingMP4, MP4Tag.setItem, MP4Tag.removeItem, MP4Tag.lookup]
    rw [find_removed_append t.items kMP4FMPSRatingID
      (kMP4FMPSRatingID, MP4Item.strs [qNumber r]) rfl]
    rfl
  · intro t r
    rfl

/-- C3 counterexample: `WriteFile` on an ASF file with `save_playcount` set
and playcount 5 leaves the ASF attribute tag untouched — in particular it is
not what the format-appropriate playcount routine would have produced, which
is an FMPS/Playcount attribute of "5". -/
theorem writeFile_asf_playcount_counterexample :
    (writeTagsToHandle asfHandle reqPlaycount5 {}).file = SpecificFile.asfF (some ⟨[]⟩) 16
  ∧ (writeTagsToHandle asfHandle reqPlaycount5 {}).file
      ≠ SpecificFile.asfF (some (setPlaycountASF ⟨[]⟩ 5)) 16
  ∧ setPlaycountASF ⟨[]⟩ 5 = ⟨[("FMPS/Playcount", "5")]⟩ := by
  decide

/-- C3 (amended): `WriteFile` has no ASF dispatch branch: on an ASF file the
`save_playcount` and `save_rating` flags (and `save_cover`) have no effect —
the concrete file state is returned unchanged, and only the generic tag
fields are written when `save_tags` is set; the saved handle is exactly this
mutation. The ASF playcount/rating routines are invoked only by the
dedicated `SaveSongPlaycountToFile` / `SaveSongRatingToFile` operations. -/
theorem writeFile_asf_ignores_playcount_rating
    (h : Handle) (req : WriteRequest) (cover : Cover) (atag : Option ASFTag)
    (bps : Int) (hf : h.file = SpecificFile.asfF atag bps) :
    (writeTagsToHandle h req cover).file = h.file
  ∧ (writeTagsToHandle h req cover).tag
      = (if req.saveTags then h.tag.map (setGenericFields req.song) else h.tag)
  ∧ (∀ (ext : Ext) (fn : String), ext.openFile fn = some h → fn ≠ "" →
        ext.fileExists fn = true →
        (writeFile ext fn req cover).2 = some (writeTagsToHandle h req cover)) := by
  refine ⟨?_, ?_, ?_⟩
  · simp [writeTagsToHandle, hf]
  · simp [writeTagsToHandle]
  · intro ext fn hop hne hex
    simp [writeFile, hne, hex, hop]

/-- C3 witness: the amended theorem applied to a concrete opened ASF file
with `save_playcount` requested. -/
theorem writeFile_asf_ignores_playcount_rating_witness :
    (writeTagsToHandle asfHandle reqPlaycount5 {}).file = asfHandle.file
  ∧ (writeFile extASF "a.wma" reqPlaycount5 {}).2
      = some (writeTagsToHandle asfHandle reqPlaycount5 {}) := by
  have h := writeFile_asf_ignores_playcount_rating asfHandle reqPlaycount5 {}
    (some ⟨[]⟩) 16 rfl
  exact ⟨h.1, h.2.2 extASF "a.wma" rfl (by decide) rfl⟩

/-- Every integer field normalized by `normalizeSong` is strictly positive
or the unset sentinel -1. -/
theorem normalizeSong_fields (x : Song) :
    (0 < (normalizeSong x).track ∨ (normalizeSong x).track = -1)
  ∧ (0 < (normalizeSong x).disc ∨ (normalizeSong x).disc = -1)
  ∧ (0 < (normalizeSong x).year ∨ (normalizeSong x).year = -1)
  ∧ (0 < (normalizeSong x).originalyear ∨ (normalizeSong x).originalyear = -1)
  ∧ (0 < (normalizeSong x).samplerate ∨ (normalizeSong x).samplerate = -1)
  ∧ (0 < (normalizeSong x).bitdepth ∨ (normalizeSong x).bitdepth = -1)
  ∧ (0 < (normalizeSong x).bitrate ∨ (normalizeSong x).bitrate = -1)
  ∧ (0 < (normalizeSong x).lastplayed ∨ (normalizeSong x).lastplayed = -1) := by
  refine ⟨?_, ?_, ?_, ?_, ?_, ?_, ?_, ?_⟩ <;> exact normalizeField_pos_or_unset _

/-- C5: every `ReadFile` call that reaches the post-processing (it returns
`Success` or `Unsupported`) leaves each of track, disc, year, original-year,
sample-rate, bit-depth, bitrate and last-played either strictly positive or
equal to the unset sentinel -1, for every environment and every
format-specific extraction. -/
theorem readFile_normalizes_sentinels (ext : Ext)
    (extract : Handle → Song → Song × String × String × String)
    (fn : String) (c : ErrorCode) (s : Song)
    (h : readFile ext extract fn = (c, s))
    (hc : c = ErrorCode.Success ∨ c = ErrorCode.Unsupported) :
    (0 < s.track ∨ s.track = -1)
  ∧ (0 < s.disc ∨ s.disc = -1)
  ∧ (0 < s.year ∨ s.year = -1)
  ∧ (0 < s.originalyear ∨ s.originalyear = -1)
  ∧ (0 < s.samplerate ∨ s.samplerate = -1)
  ∧ (0 < s.bitdepth ∨ s.bitdepth = -1)
  ∧ (0 < s.bitrate ∨ s.bitrate = -1)
  ∧ (0 < s.lastplayed ∨ s.lastplayed = -1) := by
  rcases hc with rfl | rfl
  · simp only [readFile] at h
    split at h
    · simp at h
    · split at h
      · simp at h
      · split at h
        · simp at h
        · split at h
          · simp at h
          · rw [Prod.mk.injEq] at h
            obtain ⟨-, rfl⟩ := h
            exact normalizeSong_fields _
  · simp only [readFile] at h
    split at h
    · simp at h
    · split at h
      · simp at h
      · split at h
        · simp at h
        · split at h
          · rw [Prod.mk.injEq] at h
            obtain ⟨-, rfl⟩ := h
            exact normalizeSong_fields _
          · simp at h

/-- C5 witness: the theorem applied to a successful concrete read. -/
theorem readFile_normalizes_sentinels_witness :
    (0 < (readFile extVA extractTrivial "a.mp3").2.track
        ∨ (readFile extVA extractTrivial "a.mp3").2.track = -1)
  ∧ (0 < (readFile extVA extractTrivial "a.mp3").2.disc
        ∨ (readFile extVA extractTrivial "a.mp3").2.disc = -1)
  ∧ (0 < (readFile extVA extractTrivial "a.mp3").2.year
        ∨ (readFile extVA extractTrivial "a.mp3").2.year = -1)
  ∧ (0 < (readFile extVA extractTrivial "a.mp3").2.originalyear
        ∨ (readFile extVA extractTrivial "a.mp3").2.originalyear = -1)
  ∧ (0 < (readFile extVA extractTrivial "a.mp3").2.samplerate
        ∨ (readFile extVA extractTrivial "a.mp3").2.samplerate = -1)
  ∧ (0 < (readFile extVA extractTrivial "a.mp3").2.bitdepth
        ∨ (readFile extVA extractTrivial "a.mp3").2.bitdepth = -1)
  ∧ (0 < (readFile extVA extractTrivial "a.mp3").2.bitrate
        ∨ (readFile extVA extractTrivial "a.mp3").2.bitrate = -1)
  ∧ (0 < (readFile extVA extractTrivial "a.mp3").2.lastplayed
        ∨ (readFile extVA extractTrivial "a.mp3").2.lastplayed = -1) :=
  readFile_normalizes_sentinels extVA extractTrivial "a.mp3"
    (readFile extVA extractTrivial "a.mp3").1
    (readFile extVA extractTrivial "a.mp3").2
    rfl (Or.inl (by decide))

/-- C8: `LoadEmbeddedArt` on any file that opens successfully returns
`Success`, whatever the per-format cover lookup finds — the absence of a
cover at every stage is never reported as an error. -/
theorem loadEmbeddedArt_absence_success (ext : Ext) (fn : String) (h : Handle)
    (hne : fn ≠ "") (hex : ext.fileExists fn = true)
    (hop : ext.openFile fn = some h) :
    (loadEmbeddedArt ext fn).1 = ErrorCode.Success := by
  unfold loadEmbeddedArt
  rw [if_neg hne, if_neg (by simp [hex]), hop]
  obtain ⟨tagv, propsv, filev⟩ := h
  cases filev <;> (repeat' split) <;> first | rfl | simp_all

/-- C8 witness: a concrete MPEG file whose ID3v2 tag holds no APIC frame
still yields `Success`. -/
theorem loadEmbeddedArt_absence_success_witness :
    (loadEmbeddedArt extVA "a.mp3").1 = ErrorCode.Success :=
  loadEmbeddedArt_absence_success extVA "a.mp3" mpegHandleVA (by decide) rfl rfl

/-- C10: after its validation prologue, `SaveSongRatingToFile` with a
strictly negative rating returns `Success` without opening the file (the
result is independent of the open collaborator and no handle is touched),
while a rating of exactly 0 proceeds to open the file and run the per-format
write. -/
theorem saveSongRating_negative_silent_noop (ext : Ext) (fn : String) (r : Rat)
    (hne : fn ≠ "") (hex : ext.fileExists fn = true) (hr : r < 0) :
    saveSongRatingToFile ext fn r = (ErrorCode.Success, none)
  ∧ (∀ g, saveSongRatingToFile { ext with openFile := g } fn r
        = (ErrorCode.Success, none))
  ∧ (∀ h, ext.openFile fn = some h →
        (saveSongRatingToFile ext fn 0).2.isSome = true) := by
  refine ⟨?_, ?_, ?_⟩
  · simp [saveSongRatingToFile, hne, hex, hr]
  · intro g
    simp [saveSongRatingToFile, hne, hex, hr]
  · intro h hop
    unfold saveSongRatingToFile
    rw [if_neg hne, if_neg (by simp [hex]), if_neg (lt_irrefl (0 : Rat)), hop]
    obtain ⟨tagv, propsv, filev⟩ := h
    cases filev <;> (repeat' split) <;> first | rfl | simp_all

/-- C10 witness: the theorem applied to a concrete existing file. -/
theorem saveSongRating_negative_silent_noop_witness :
    saveSongRatingToFile extVA "a.mp3" (-1) = (ErrorCode.Success, none) :=
  (saveSongRating_negative_silent_noop extVA "a.mp3" (-1) (by decide) rfl
    (by norm_num)).1

/-- C1: each of the six public operations checks the empty path first
(returning FilenameMissing) and file existence second (returning
FileDoesNotExist), before any attempt to open the file: the error results
carry an untouched output state, and under a missing file the result is
independent of the open collaborator. -/
theorem validation_precedes_open (ext : Ext)
    (extract : Handle → Song → Song × String × String × String)
    (fn : String) (req : WriteRequest) (cover : Cover) (pc : Nat) (r : Rat)
    (hne : fn ≠ "") (hex : ext.fileExists fn = false) :
    readFile ext extract "" = (ErrorCode.FilenameMissing, defaultSong)
  ∧ writeFile ext "" req cover = (ErrorCode.FilenameMissing, none)
  ∧ loadEmbeddedArt ext "" = (ErrorCode.FilenameMissing, [])
  ∧ saveEmbeddedArt ext "" cover = (ErrorCode.FilenameMissing, none)
  ∧ saveSongPlaycountToFile ext "" pc = (ErrorCode.FilenameMissing, none)
  ∧ saveSongRatingToFile ext "" r = (ErrorCode.FilenameMissing, none)
  ∧ readFile ext extract fn = (ErrorCode.FileDoesNotExist, defaultSong)
  ∧ writeFile ext fn req cover = (ErrorCode.FileDoesNotExist, none)
  ∧ loadEmbeddedArt ext fn = (ErrorCode.FileDoesNotExist, [])
  ∧ saveEmbeddedArt ext fn cover = (ErrorCode.FileDoesNotExist, none)
  ∧ saveSongPlaycountToFile ext fn pc = (ErrorCode.FileDoesNotExist, none)
  ∧ saveSongRatingToFile ext fn r = (ErrorCode.FileDoesNotExist, none)
  ∧ (∀ g, readFile { ext with openFile := g } extract fn = readFile ext extract fn)
  ∧ (∀ g, writeFile { ext with openFile := g } fn req cover
        = writeFile ext fn req cover)
  ∧ (∀ g, loadEmbeddedArt { ext with openFile := g } fn = loadEmbeddedArt ext fn)
  ∧ (∀ g, saveEmbeddedArt { ext with openFile := g } fn cover
        = saveEmbeddedArt ext fn cover)
  ∧ (∀ g, saveSongPlaycountToFile { ext with openFile := g } fn pc
        = saveSongPlaycountToFile ext fn pc)
  ∧ (∀ g, saveSongRatingToFile { ext with openFile := g } fn r
        = saveSongRatingToFile ext fn r) := by
  refine ⟨?_, ?_, ?_, ?_, ?_, ?_, ?_, ?_, ?_, ?_, ?_, ?_, ?_, ?_, ?_, ?_, ?_, ?_⟩ <;>
    simp [readFile, writeFile, loadEmbeddedArt, saveEmbeddedArt,
      saveSongPlaycountToFile, saveSongRatingToFile, hne, hex]

/-- C1 witness: the theorem applied to a concrete environment where the
path "x" does not exist. -/
theorem validation_precedes_open_witness :
    readFile extNoFile extractTrivial "x" = (ErrorCode.FileDoesNotExist, defaultSong)
  ∧ writeFile extNoFile "x" reqPlaycount5 {} = (ErrorCode.FileDoesNotExist, none)
  ∧ loadEmbeddedArt extNoFile "x" = (ErrorCode.FileDoesNotExist, [])
  ∧ saveEmbeddedArt extNoFile "x" {} = (ErrorCode.FileDoesNotExist, none)
  ∧ saveSongPlaycountToFile extNoFile "x" 0 = (ErrorCode.FileDoesNotExist, none)
  ∧ saveSongRatingToFile extNoFile "x" 0 = (ErrorCode.FileDoesNotExist, none) := by
  have h := validation_precedes_open extNoFile extractTrivial "x" reqPlaycount5 {} 0 0
    (by decide) rfl
  exact ⟨h.2.2.2.2.2.2.1, h.2.2.2.2.2.2.2.1, h.2.2.2.2.2.2.2.2.1,
    h.2.2.2.2.2.2.2.2.2.1, h.2.2.2.2.2.2.2.2.2.2.1, h.2.2.2.2.2.2.2.2.2.2.2.1⟩

end Strawberry
